import Mathlib

/-!
Shallow embedding of the Canva/Cloudinary caching server (`server` source file:
in-memory asset cache, AssetView builder, `/api/findResources` query engine).
JavaScript string/number builtins used by the server (`toLowerCase`, `trim`,
`split(/\s+/)`, `String.prototype.includes`, `parseInt`, `Array.prototype.slice`,
`x || default`) are modelled explicitly as executable Lean functions over
`List Char`, restricted to the ASCII data the server handles.
-/

namespace CanvaCache

/-- `startsWithL needle hay` is true when `needle` is an initial segment of `hay`. -/
def startsWithL : List Char → List Char → Bool
  | [], _ => true
  | _ :: _, [] => false
  | a :: as, b :: bs => a = b && startsWithL as bs

/-- `occursIn needle hay` is true when `needle` occurs contiguously inside `hay`. -/
def occursIn (needle : List Char) : List Char → Bool
  | [] => needle.isEmpty
  | c :: rest => startsWithL needle (c :: rest) || occursIn needle rest

/-- Models JavaScript `hay.includes(needle)` (substring test). -/
def strIncludes (hay needle : String) : Bool :=
  occursIn needle.data hay.data

/-- Models JavaScript `String.prototype.toLowerCase` on the ASCII data the
server handles. -/
def jsToLower (s : String) : String :=
  ⟨s.data.map Char.toLower⟩

/-- Models JavaScript `String.prototype.trim`: strip whitespace from both ends. -/
def jsTrim (s : String) : String :=
  ⟨((s.data.dropWhile Char.isWhitespace).reverse.dropWhile Char.isWhitespace).reverse⟩

def splitWsAux : List Char → List Char → List String
  | cur, [] => if cur.isEmpty then [] else [⟨cur.reverse⟩]
  | cur, c :: rest =>
    if c.isWhitespace then
      if cur.isEmpty then splitWsAux [] rest
      else (⟨cur.reverse⟩ : String) :: splitWsAux [] rest
    else splitWsAux (c :: cur) rest

/-- Models `query.split(/\s+/)` as the server uses it (the query is trimmed
first, so the result is the list of maximal whitespace-free runs, in order). -/
def splitWs (s : String) : List String :=
  splitWsAux [] s.data

/-- Hexadecimal digit test (0-9, a-f, A-F). -/
def isHexDigitCh (c : Char) : Bool :=
  c.isDigit || ('a' ≤ c && c ≤ 'f') || ('A' ≤ c && c ≤ 'F')

/-- Numeric value of a digit list in the given base (digits assumed valid). -/
def digitsToNat (base : Nat) (ds : List Char) : Nat :=
  List.foldl (fun acc c =>
    acc * base +
      (if c.isDigit then c.toNat - 48
       else if 'a' ≤ c && c ≤ 'f' then c.toNat - 87
       else if 'A' ≤ c && c ≤ 'F' then c.toNat - 55
       else 0)) 0 ds

/-- Models JavaScript `parseInt(s)` with no radix argument: skip leading
whitespace, optional sign, optional `0x`/`0X` hex marker, then the longest run
of digits; the result is `none` exactly when `parseInt` would return `NaN`
(no digit found). -/
def jsParseInt (s : String) : Option Int :=
  let cs0 := s.data.dropWhile Char.isWhitespace
  let neg : Bool := cs0.head? = some '-'
  let cs1 := if cs0.head? = some '-' ∨ cs0.head? = some '+' then cs0.tail else cs0
  let isHex : Bool := cs1.take 2 = ['0', 'x'] ∨ cs1.take 2 = ['0', 'X']
  let cs2 := if isHex then cs1.drop 2 else cs1
  let digits := cs2.takeWhile (fun c => if isHex then isHexDigitCh c else c.isDigit)
  if digits.isEmpty then none
  else
    let n : Nat := digitsToNat (if isHex then 16 else 10) digits
    some (if neg then -(n : Int) else (n : Int))

/-- Models JS `value || default` for an optional numeric field: `undefined`
and `0` are falsy, every other number (negative ones included) is truthy. -/
def jsNumOr (v : Option Int) (d : Int) : Int :=
  match v with
  | none => d
  | some n => if n = 0 then d else n

/-- Models JS `value || default` for an optional string: `undefined` and the
empty string are falsy. -/
def jsStrOr (v : Option String) (d : String) : String :=
  match v with
  | none => d
  | some s => if s = "" then d else s

/-- Models JS `list.join(sep)` on a string list. -/
def jsJoin (sep : String) : List String → String
  | [] => ""
  | [s] => s
  | s :: rest => s ++ sep ++ jsJoin sep rest

/-- Models JS `s.split(sepChar)` for a one-character separator (as in
`public_id.split('/')`): always returns at least one piece. -/
def splitOnChar (sep : Char) : List Char → List Char → List String
  | cur, [] => [⟨cur.reverse⟩]
  | cur, c :: rest =>
    if c = sep then (⟨cur.reverse⟩ : String) :: splitOnChar sep [] rest
    else splitOnChar sep (c :: cur) rest

/-- One raw asset record as returned by the upstream listing call.
`none` models a field that is `undefined` in the JavaScript object. -/
structure RawAsset where
  asset_id : Option String
  public_id : String
  resource_type : String
  format : Option String
  tags : Option (List String)
  width : Option Int
  height : Option Int
deriving Repr, DecidableEq

/-- The normalized view model the server builds for every raw record and
serves to clients. The three URL fields of the source (`url`, `thumbnail`,
`preview`) are produced by the external `cloudinary.url` capability and are
outside this embedding; no claim concerns them. -/
structure AssetView where
  id : String
  name : String
  type : String
  contentType : String
  format : Option String
  tags : List String
  width : Int
  height : Int
  searchable : String
deriving Repr, DecidableEq

/-- The `types.image` table of `getContentType`. -/
def imageTypes : List (String × String) :=
  [("jpg", "image/jpeg"), ("jpeg", "image/jpeg"), ("png", "image/png"),
   ("gif", "image/gif"),
   ("webp", "image/webp"), ("svg", "image/svg+xml"), ("avif", "image/avif"),
   ("tiff", "image/tiff")]

/-- The `types.video` table of `getContentType`. -/
def videoTypes : List (String × String) :=
  [("mp4", "video/mp4"), ("mov", "video/quicktime"), ("avi", "video/x-msvideo"),
   ("mkv", "video/x-matroska"), ("webm", "video/webm"), ("flv", "video/x-flv")]

/-- The `types.audio` table of `getContentType`. -/
def audioTypes : List (String × String) :=
  [("mp3", "audio/mpeg"), ("wav", "audio/wav"), ("ogg", "audio/ogg"),
   ("m4a", "audio/mp4"), ("flac", "audio/flac"), ("aac", "audio/aac")]

/-- The server's `getContentType(type, format)` helper: three guarded table
lookups (`type === 'image'`, `type === 'video'`, `type === 'raw'`), falling
through to `application/octet-stream` on any miss. -/
def getContentType (type : String) (format : Option String) : String :=
  let formatLower := jsToLower (format.getD "")
  match (if type = "image" then imageTypes.lookup formatLower else none) with
  | some ct => ct
  | none =>
    match (if type = "video" then videoTypes.lookup formatLower else none) with
    | some ct => ct
    | none =>
      match (if type = "raw" then audioTypes.lookup formatLower else none) with
      | some ct => ct
      | none => "application/octet-stream"

/-- The `audioFormats` array of `updateAssetCache`. -/
def audioFormats : List String := ["mp3", "wav", "ogg", "m4a", "flac", "aac"]

/-- The per-record mapping inside `updateAssetCache` (`result.resources.map`):
classification, dimension defaults, content-type inference, display name,
tags and searchable text. -/
def buildAssetView (asset : RawAsset) : AssetView :=
  let format := jsToLower (asset.format.getD "")
  let pair : String × String :=
    if asset.resource_type = "image" then ("IMAGE", asset.resource_type)
    else if asset.resource_type = "video" then ("VIDEO", asset.resource_type)
    else if asset.resource_type = "raw" ∧ format ∈ audioFormats then
      ("AUDIO", "audio")
    else ("FILE", asset.resource_type)
  let type := pair.1
  let assetResourceType := pair.2
  let assetWidth := jsNumOr asset.width 400
  let assetHeight := jsNumOr asset.height 300
  let finalContentType := getContentType assetResourceType asset.format
  let lastSeg := (splitOnChar '/' [] asset.public_id.data).getLastD ""
  let tagsJoined : String :=
    match asset.tags with
    | none => "undefined"
    | some ts => jsJoin " " ts
  { id := jsStrOr asset.asset_id asset.public_id
    name := jsStrOr (some lastSeg) asset.public_id
    type := type
    contentType := finalContentType
    format := asset.format
    tags := asset.tags.getD []
    width := assetWidth
    height := assetHeight
    searchable :=
      jsToLower (asset.public_id ++ " " ++ tagsJoined ++ " " ++ type ++ " " ++ format) }

/-- One response of the upstream listing call: either a page of records plus
the continuation cursor (`none` on the last page), or a thrown error. -/
inductive PageResult where
  | ok (resources : List RawAsset) (next_cursor : Option String)
  | err (msg : String)
deriving Repr

/-- The `do … while (next_cursor)` loop of `updateAssetCache`, driven by the
stream of upstream responses: map each page through the builder, accumulate in
order, stop when the cursor is absent (or the empty string, which is falsy),
abort with the error when a call throws. A well-formed upstream stream ends
with a page whose cursor is `none` before the list runs out. -/
def fetchPages : List PageResult → List AssetView → Except String (List AssetView)
  | [], acc => Except.ok acc
  | PageResult.err m :: _, _ => Except.error m
  | PageResult.ok recs next_cursor :: rest, acc =>
    let acc2 := acc ++ recs.map buildAssetView
    match next_cursor with
    | none => Except.ok acc2
    | some c => if c = "" then Except.ok acc2 else fetchPages rest acc2

/-- The two module-level mutable cells: `assetCache` (initially `[]`) and
`cacheInitialized` (initially `false`). -/
structure CacheState where
  assetCache : List AssetView
  cacheInitialized : Bool
deriving Repr, DecidableEq

/-- The initial state of the module-level cells. -/
def initialState : CacheState := { assetCache := [], cacheInitialized := false }

/-- `updateAssetCache` as a state transition: on success install the
accumulated views and set the flag; in the `catch` branch leave `assetCache`
untouched and still set `cacheInitialized := true`. -/
def updateAssetCache (upstream : List PageResult) (st : CacheState) : CacheState :=
  match fetchPages upstream [] with
  | Except.ok resources => { assetCache := resources, cacheInitialized := true }
  | Except.error _ => { st with cacheInitialized := true }

/-- A well-formed upstream stream for a dataset split into the given pages:
every page but the last carries a continuation cursor, the last carries none. -/
def mkPages : List (List RawAsset) → List PageResult
  | [] => []
  | [p] => [PageResult.ok p none]
  | p :: rest => PageResult.ok p (some "next") :: mkPages rest

/-- The identifier the builder assigns: `asset.asset_id || asset.public_id`. -/
def rawId (r : RawAsset) : String := jsStrOr r.asset_id r.public_id

/-- A run of successful upstream pages, each carrying a continuation cursor
(used to place a failure after some successful pages). -/
def okPages (ps : List (List RawAsset)) : List PageResult :=
  ps.map (fun p => PageResult.ok p (some "next"))

/-- The body of a `/api/findResources` request. -/
structure FindRequest where
  searchText : Option String
  cursor : Option String
deriving Repr, DecidableEq

/-- The response of `/api/findResources` (HTTP status plus JSON body). -/
structure FindResponse where
  status : Nat
  type : String
  resources : List AssetView
  continuation : Option String
  message : Option String
deriving Repr, DecidableEq

def ASSETS_PER_PAGE : Nat := 50

/-- The 503 body sent while `cacheInitialized` is false. -/
def notReadyResponse : FindResponse :=
  { status := 503
    type := "ERROR"
    resources := []
    continuation := none
    message := some "Asset cache is not yet initialized. Please wait a moment." }

/-- The filtering step of the handler: trim the search text; when non-empty,
lower-case it, split it on whitespace runs and keep the assets whose
`searchable` field contains every term; otherwise keep everything. -/
def filterAssets (cache : List AssetView) (searchText : Option String) :
    List AssetView :=
  let query := jsTrim (searchText.getD "")
  if query ≠ "" then
    let searchTerms := splitWs (jsToLower query)
    cache.filter (fun asset => searchTerms.all (fun term => strIncludes asset.searchable term))
  else cache

/-- Index normalization of `Array.prototype.slice` (ToIntegerOrInfinity):
`NaN` (modelled by `none`) becomes 0, negative indices count from the end
clamped at 0, nonnegative ones are clamped at the length. -/
def jsSliceIndex (len : Nat) : Option Int → Nat
  | none => 0
  | some v => if v < 0 then ((len : Int) + v).toNat else min v.toNat len

/-- Models `l.slice(start, stop)` on JS arrays, where either bound may be the
`NaN` produced by `parseInt` on a malformed cursor. -/
def jsSlice {α : Type} (l : List α) (start stop : Option Int) : List α :=
  let s := jsSliceIndex l.length start
  let e := jsSliceIndex l.length stop
  (l.drop s).take (e - s)

/-- The `/api/findResources` handler: not-ready gate, filtering, local
pagination (`startIndex = cursor ? parseInt(cursor) : 0`, page slice of
`ASSETS_PER_PAGE`, `nextCursor` when `endIndex` is still inside the filtered
sequence). `none` for the cursor models both an absent and an empty (falsy)
`cursor` field; `jsParseInt` returning `none` models the `NaN` case. -/
def findResources (st : CacheState) (req : FindRequest) : FindResponse :=
  if st.cacheInitialized = false then notReadyResponse
  else
    let filteredAssets := filterAssets st.assetCache req.searchText
    let startIndex : Option Int :=
      match req.cursor with
      | none => some 0
      | some c => if c = "" then some 0 else jsParseInt c
    let endIndex : Option Int := startIndex.map (· + (ASSETS_PER_PAGE : Int))
    let resources := jsSlice filteredAssets startIndex endIndex
    let nextCursor : Option String :=
      match endIndex with
      | some e => if e < (filteredAssets.length : Int) then some (toString e) else none
      | none => none
    { status := 200
      type := "SUCCESS"
      resources := resources
      continuation := nextCursor
      message := none }

/-- Sample upstream record matching the spec's search example: its built view
has searchable text `"cat_photo tag1 tag2 image jpg"`. -/
def catRaw : RawAsset :=
  { asset_id := some "cat-1", public_id := "cat_photo", resource_type := "image",
    format := some "jpg", tags := some ["tag1", "tag2"],
    width := some 800, height := some 600 }

/-- Sample upstream record with an absent (`undefined`) tags field. -/
def noTagsRaw : RawAsset :=
  { asset_id := some "nt-1", public_id := "mystery", resource_type := "image",
    format := some "jpg", tags := none, width := some 10, height := some 20 }

/-- Sample raw-kind record with an audio format. -/
def flacRaw : RawAsset :=
  { asset_id := some "flac-1", public_id := "song", resource_type := "raw",
    format := some "flac", tags := some [], width := none, height := none }

/-- Sample raw-kind record with format mp3. -/
def mp3Raw : RawAsset :=
  { asset_id := some "mp3-1", public_id := "tune", resource_type := "raw",
    format := some "mp3", tags := some [], width := none, height := none }

/-- Sample raw-kind record with format pdf. -/
def pdfRaw : RawAsset :=
  { asset_id := some "pdf-1", public_id := "doc", resource_type := "raw",
    format := some "pdf", tags := some [], width := none, height := none }

/-- Sample image record with format webp. -/
def webpRaw : RawAsset :=
  { asset_id := some "webp-1", public_id := "pic", resource_type := "image",
    format := some "webp", tags := some [], width := some 5, height := some 5 }

/-- Sample raw record with an unknown format. -/
def xyzRaw : RawAsset :=
  { asset_id := some "xyz-1", public_id := "blob", resource_type := "raw",
    format := some "xyz", tags := some [], width := none, height := none }

/-- Sample record with negative width and height. -/
def negDimsRaw : RawAsset :=
  { asset_id := some "neg-1", public_id := "odd", resource_type := "image",
    format := some "png", tags := some [], width := some (-7), height := some (-9) }

/-- Sample record with absent width and height. -/
def noDimsRaw : RawAsset :=
  { asset_id := some "nd-1", public_id := "plain", resource_type := "image",
    format := some "png", tags := some [], width := none, height := none }

/-- Sample record with positive dimensions kept as-is. -/
def posDimsRaw : RawAsset :=
  { asset_id := some "pos-1", public_id := "sized", resource_type := "image",
    format := some "png", tags := some [], width := some 5, height := some 6 }

/-! ### Helper lemmas -/

theorem startsWithL_iff : ∀ (n h : List Char),
    startsWithL n h = true ↔ ∃ t, h = n ++ t
  | [], h => by simp [startsWithL]
  | _ :: _, [] => by simp [startsWithL]
  | a :: as, b :: bs => by
    rw [startsWithL]
    simp only [Bool.and_eq_true, decide_eq_true_eq, startsWithL_iff as bs,
      List.cons_append, List.cons.injEq]
    constructor
    · rintro ⟨rfl, t, rfl⟩
      exact ⟨t, rfl, rfl⟩
    · rintro ⟨t, rfl, rfl⟩
      exact ⟨rfl, t, rfl⟩

theorem occursIn_iff : ∀ (n h : List Char),
    occursIn n h = true ↔ ∃ a b, h = a ++ n ++ b
  | n, [] => by
    simp only [occursIn, List.isEmpty_iff]
    constructor
    · rintro rfl
      exact ⟨[], [], rfl⟩
    · rintro ⟨a, b, hab⟩
      rcases List.append_eq_nil.mp (List.append_eq_nil.mp hab.symm).1 with ⟨-, h2⟩
      exact h2
  | n, c :: rest => by
    rw [occursIn]
    simp only [Bool.or_eq_true, startsWithL_iff, occursIn_iff n rest]
    constructor
    · rintro (⟨t, ht⟩ | ⟨a, b, rfl⟩)
      · exact ⟨[], t, by simp [ht]⟩
      · exact ⟨c :: a, b, rfl⟩
    · rintro ⟨a, b, hab⟩
      cases a with
      | nil =>
        left
        exact ⟨b, by simpa using hab⟩
      | cons x xs =>
        right
        rw [List.cons_append, List.cons_append] at hab
        injection hab with h1 h2
        exact ⟨xs, b, by simpa using h2⟩

/-- `strIncludes` really is the substring relation on the underlying
character lists. -/
theorem strIncludes_iff (hay needle : String) :
    strIncludes hay needle = true ↔ ∃ a b, hay.data = a ++ needle.data ++ b := by
  exact occursIn_iff needle.data hay.data

/-- Substring containment is transitive. -/
theorem strIncludes_trans {s u t : String} (h1 : strIncludes s u = true)
    (h2 : strIncludes u t = true) : strIncludes s t = true := by
  rw [strIncludes_iff] at h1 h2 ⊢
  obtain ⟨a, b, hab⟩ := h1
  obtain ⟨c, d, hcd⟩ := h2
  refine ⟨a ++ c, d ++ b, ?_⟩
  rw [hab, hcd]
  simp [List.append_assoc]

/-- Membership in the filtered sequence, characterized: the asset is in the
cache and every whitespace-separated lower-cased term of the trimmed search
text is a substring of its searchable field. -/
theorem mem_filterAssets (cache : List AssetView) (searchText : Option String)
    (v : AssetView) :
    v ∈ filterAssets cache searchText ↔
      v ∈ cache ∧
        ∀ term ∈ splitWs (jsToLower (jsTrim (searchText.getD ""))),
          strIncludes v.searchable term = true := by
  by_cases hq : jsTrim (searchText.getD "") = ""
  · have hterms : splitWs (jsToLower (jsTrim (searchText.getD ""))) = [] := by
      rw [hq]
      rfl
    rw [filterAssets, hterms]
    simp [hq]
  · rw [filterAssets]
    simp only [ne_eq, hq, not_false_eq_true, if_true, List.mem_filter,
      List.all_eq_true]

/-- The filtered sequence is all of the cache when the trimmed search text is
empty. -/
theorem filterAssets_empty_query (cache : List AssetView) (searchText : Option String)
    (h : jsTrim (searchText.getD "") = "") :
    filterAssets cache searchText = cache := by
  rw [filterAssets]
  simp [h]

/-! ### Claims -/

/-- Claim C1: for every snapshot and every search request, an AssetView is in
the filtered sequence iff it is in the snapshot and every whitespace-separated,
lower-cased term of the trimmed searchText is a substring of its searchable
field; and when the trimmed searchText is empty or absent, the filtered
sequence is the whole snapshot. -/
theorem claim_C1_and_search (cache : List AssetView) (searchText : Option String)
    (v : AssetView) :
    (v ∈ filterAssets cache searchText ↔
      v ∈ cache ∧
        ∀ term ∈ splitWs (jsToLower (jsTrim (searchText.getD ""))),
          strIncludes v.searchable term = true)
    ∧ (jsTrim (searchText.getD "") = "" → filterAssets cache searchText = cache) :=
  ⟨mem_filterAssets cache searchText v, filterAssets_empty_query cache searchText⟩

/-- Witness for C1 at the spec's own example: searchable
`"cat_photo tag1 tag2 image jpg"`, query `"cat image"` matches, query
`"cat dog"` does not; absent searchText keeps everything. -/
theorem claim_C1_witness :
    buildAssetView catRaw ∈ filterAssets [buildAssetView catRaw] (some "cat image")
    ∧ (buildAssetView catRaw ∉ filterAssets [buildAssetView catRaw] (some "cat dog"))
    ∧ filterAssets [buildAssetView catRaw] none = [buildAssetView catRaw] := by
  refine ⟨?_, ?_, ?_⟩
  · exact (claim_C1_and_search [buildAssetView catRaw] (some "cat image")
      (buildAssetView catRaw)).1.mpr ⟨by decide, by decide⟩
  · intro hmem
    have h := (claim_C1_and_search [buildAssetView catRaw] (some "cat dog")
      (buildAssetView catRaw)).1.mp hmem
    have hdog := h.2 "dog" (by decide)
    exact absurd hdog (by decide)
  · exact (claim_C1_and_search [buildAssetView catRaw] none
      (buildAssetView catRaw)).2 (by decide)

/-- Claim C7: every query issued while the readiness flag is false gets the
not-ready response: HTTP 503, type ERROR, empty resources, null continuation,
a message, and in particular never a SUCCESS response. -/
theorem claim_C7_not_ready (cache : List AssetView) (req : FindRequest) :
    findResources { assetCache := cache, cacheInitialized := false } req =
      notReadyResponse
    ∧ notReadyResponse.type = "ERROR"
    ∧ notReadyResponse.resources = []
    ∧ notReadyResponse.continuation = none
    ∧ notReadyResponse.status = 503
    ∧ (findResources { assetCache := cache, cacheInitialized := false } req).type
        ≠ "SUCCESS" := by
  refine ⟨rfl, rfl, rfl, rfl, rfl, ?_⟩
  intro h
  rw [show (findResources { assetCache := cache, cacheInitialized := false } req).type
      = "ERROR" from rfl] at h
  exact absurd h (by decide)

/-- Distributing the lower-casing over string concatenation. -/
theorem jsToLower_append (s t : String) :
    jsToLower (s ++ t) = jsToLower s ++ jsToLower t := by
  apply congrArg String.mk
  rw [show (s ++ t).data = s.data ++ t.data from rfl, List.map_append]

/-- A string contains its middle component as a substring. -/
theorem strIncludes_of_append (x y z : String) :
    strIncludes (x ++ y ++ z) y = true := by
  rw [strIncludes_iff]
  exact ⟨x.data, z.data, rfl⟩

/-- Substring containment is preserved by extending the haystack on the right. -/
theorem strIncludes_append_l (x y t : String) (h : strIncludes x t = true) :
    strIncludes (x ++ y) t = true := by
  rw [strIncludes_iff] at h ⊢
  obtain ⟨a, b, hab⟩ := h
  refine ⟨a, b ++ y.data, ?_⟩
  rw [show (x ++ y).data = x.data ++ y.data from rfl, hab]
  simp [List.append_assoc]

/-- Substring containment is preserved by extending the haystack on the left. -/
theorem strIncludes_append_r (x y t : String) (h : strIncludes y t = true) :
    strIncludes (x ++ y) t = true := by
  rw [strIncludes_iff] at h ⊢
  obtain ⟨a, b, hab⟩ := h
  refine ⟨x.data ++ a, b, ?_⟩
  rw [show (x ++ y).data = x.data ++ y.data from rfl, hab]
  simp [List.append_assoc]

/-- The searchable text of a built view, spelled out (with the match on the
raw record's optional tag list still visible). -/
theorem searchable_eq (a : RawAsset) :
    (buildAssetView a).searchable
      = jsToLower (a.public_id ++ " "
          ++ (match a.tags with | none => "undefined" | some ts => jsJoin " " ts)
          ++ " " ++ (buildAssetView a).type ++ " " ++ jsToLower (a.format.getD "")) :=
  rfl

/-- Claim C5: classification is the ordered first-match rule image → IMAGE,
video → VIDEO, raw with lower-cased format among the six audio formats →
AUDIO, anything else → FILE; in particular raw+mp3 is AUDIO and raw+pdf is
FILE. -/
theorem claim_C5_classification (a : RawAsset) :
    ((buildAssetView a).type =
      (if a.resource_type = "image" then "IMAGE"
       else if a.resource_type = "video" then "VIDEO"
       else if a.resource_type = "raw" ∧ jsToLower (a.format.getD "") ∈ audioFormats
       then "AUDIO"
       else "FILE"))
    ∧ (buildAssetView mp3Raw).type = "AUDIO"
    ∧ (buildAssetView pdfRaw).type = "FILE" := by
  refine ⟨?_, by decide, by decide⟩
  simp only [buildAssetView]
  split_ifs <;> rfl

/-- Counterexample for claim C8 as stated: a record with negative width and
height keeps those negative values (JS `||` only treats 0 as falsy among
numbers), so "non-positive ⇒ defaulted" is false. -/
theorem claim_C8_counterexample :
    negDimsRaw.width = some (-7)
    ∧ (buildAssetView negDimsRaw).width = -7
    ∧ (buildAssetView negDimsRaw).width ≠ 400
    ∧ negDimsRaw.height = some (-9)
    ∧ (buildAssetView negDimsRaw).height = -9
    ∧ (buildAssetView negDimsRaw).height ≠ 300 := by
  decide

/-- Claim C8 (amended): width defaults to 400 (height to 300) exactly when the
raw value is absent or zero; every nonzero value, negative ones included, is
preserved unchanged. -/
theorem claim_C8_dims_amended (a : RawAsset) :
    (a.width = none ∨ a.width = some 0 → (buildAssetView a).width = 400)
    ∧ (∀ w : Int, a.width = some w → w ≠ 0 → (buildAssetView a).width = w)
    ∧ (a.height = none ∨ a.height = some 0 → (buildAssetView a).height = 300)
    ∧ (∀ h : Int, a.height = some h → h ≠ 0 → (buildAssetView a).height = h) := by
  have hw : (buildAssetView a).width = jsNumOr a.width 400 := rfl
  have hh : (buildAssetView a).height = jsNumOr a.height 300 := rfl
  refine ⟨?_, ?_, ?_, ?_⟩
  · rintro (h | h) <;> simp [hw, h, jsNumOr]
  · intro w h hne
    simp [hw, h, jsNumOr, hne]
  · rintro (h | h) <;> simp [hh, h, jsNumOr]
  · intro h hv hne
    simp [hh, hv, jsNumOr, hne]

/-- Witness for the amended C8 at concrete records. -/
theorem claim_C8_witness :
    (buildAssetView noDimsRaw).width = 400
    ∧ (buildAssetView posDimsRaw).width = 5
    ∧ (buildAssetView noDimsRaw).height = 300
    ∧ (buildAssetView posDimsRaw).height = 6 :=
  ⟨(claim_C8_dims_amended noDimsRaw).1 (Or.inl rfl),
   (claim_C8_dims_amended posDimsRaw).2.1 5 rfl (by decide),
   (claim_C8_dims_amended noDimsRaw).2.2.1 (Or.inl rfl),
   (claim_C8_dims_amended posDimsRaw).2.2.2 6 rfl (by decide)⟩

/-- Claim C4, evaluated on the code: a raw flac record is reclassified AUDIO
with effective resource kind "audio", but `getContentType` has no branch for
the kind "audio" (its audio table is guarded by `type === 'raw'`, a value the
caller never passes for audio records), so the built content type is
`application/octet-stream` — not the `audio/flac` the claim and the table
intend. The image and miss rows of the claim do hold (webp ⇒ image/webp,
unknown ⇒ application/octet-stream). -/
theorem claim_C4_contentType_eval :
    (buildAssetView flacRaw).type = "AUDIO"
    ∧ (buildAssetView flacRaw).contentType = "application/octet-stream"
    ∧ (buildAssetView flacRaw).contentType ≠ "audio/flac"
    ∧ getContentType "audio" (some "flac") = "application/octet-stream"
    ∧ getContentType "raw" (some "flac") = "audio/flac"
    ∧ (buildAssetView webpRaw).contentType = "image/webp"
    ∧ (buildAssetView xyzRaw).contentType = "application/octet-stream" := by
  decide

/-- Counterexample for the last clause of claim C10 as stated: the query
`"undefined qqq"` contains the term `"undefined"` (a substring of
`"undefined"`), yet the tag-less asset does not match it, because AND
semantics also requires the term `"qqq"` to occur. -/
theorem claim_C10_counterexample :
    noTagsRaw.tags = none
    ∧ "undefined" ∈ splitWs (jsToLower (jsTrim "undefined qqq"))
    ∧ strIncludes "undefined" "undefined" = true
    ∧ filterAssets [buildAssetView noTagsRaw] (some "undefined qqq") = [] := by
  decide

/-- Claim C10 (amended): for a raw record with an absent tags field the built
view's tags list is empty (never null) while its searchable string contains
the literal substring "undefined" (the optional-chained join interpolates as
`undefined`); consequently every term that is a substring of "undefined"
passes the substring test against such an asset, and the asset matches every
query all of whose terms are substrings of "undefined" (in particular the
single-term query "undefined"). -/
theorem claim_C10_undefined_amended (a : RawAsset) (hta : a.tags = none) :
    (buildAssetView a).tags = []
    ∧ strIncludes (buildAssetView a).searchable "undefined" = true
    ∧ (∀ t : String, strIncludes "undefined" t = true →
        strIncludes (buildAssetView a).searchable t = true)
    ∧ (∀ q : String,
        (∀ term ∈ splitWs (jsToLower (jsTrim q)),
          strIncludes "undefined" term = true) →
        buildAssetView a ∈ filterAssets [buildAssetView a] (some q)) := by
  have htags : (buildAssetView a).tags = [] := by
    rw [show (buildAssetView a).tags = a.tags.getD [] from rfl, hta]
    rfl
  have hu : jsToLower "undefined" = "undefined" := by decide
  have hsub : strIncludes (buildAssetView a).searchable "undefined" = true := by
    rw [searchable_eq a, hta]
    rw [jsToLower_append]
    apply strIncludes_append_l
    rw [jsToLower_append]
    apply strIncludes_append_l
    rw [jsToLower_append]
    apply strIncludes_append_l
    rw [jsToLower_append]
    apply strIncludes_append_l
    rw [jsToLower_append, hu]
    apply strIncludes_append_r
    decide
  refine ⟨htags, hsub, fun t ht => strIncludes_trans hsub ht, fun q hq => ?_⟩
  refine (mem_filterAssets [buildAssetView a] (some q) (buildAssetView a)).mpr
    ⟨List.mem_singleton_self _, fun term hterm => ?_⟩
  exact strIncludes_trans hsub (hq term hterm)

/-- Witness for the amended C10 at a concrete tag-less record. -/
theorem claim_C10_witness :
    (buildAssetView noTagsRaw).tags = []
    ∧ strIncludes (buildAssetView noTagsRaw).searchable "undefined" = true
    ∧ buildAssetView noTagsRaw
        ∈ filterAssets [buildAssetView noTagsRaw] (some "undefined") := by
  refine ⟨(claim_C10_undefined_amended noTagsRaw rfl).1,
    (claim_C10_undefined_amended noTagsRaw rfl).2.1, ?_⟩
  exact (claim_C10_undefined_amended noTagsRaw rfl).2.2.2 "undefined" (by decide)

theorem jsSliceIndex_nat (len m : Nat) :
    jsSliceIndex len (some (m : Int)) = min m len := by
  simp only [jsSliceIndex]
  rw [if_neg (by omega)]
  simp

/-- A slice with nonnegative bounds `k` and `k + n` is the usual
`drop`-then-`take` window. -/
theorem jsSlice_nat {α : Type} (l : List α) (k n : Nat) :
    jsSlice l (some (k : Int)) (some ((k : Int) + (n : Int))) = (l.drop k).take n := by
  have h2 : jsSliceIndex l.length (some ((k : Int) + (n : Int)))
      = min (k + n) l.length := by
    rw [show (k : Int) + (n : Int) = ((k + n : Nat) : Int) by push_cast; ring]
    exact jsSliceIndex_nat l.length (k + n)
  simp only [jsSlice, jsSliceIndex_nat l.length k, h2]
  rcases Nat.le_total k l.length with hk | hk
  · rcases Nat.le_total (k + n) l.length with hkn | hkn
    · rw [show min k l.length = k from by omega,
        show min (k + n) l.length - k = n from by omega]
    · rw [show min k l.length = k from by omega,
        show min (k + n) l.length - k = l.length - k from by omega,
        List.take_of_length_le (by simp),
        List.take_of_length_le (by simp; omega)]
  · rw [show min k l.length = l.length from by omega,
      show min (k + n) l.length - l.length = 0 from by omega,
      List.drop_length, List.drop_eq_nil_of_le hk]
    simp

/-- A slice whose both bounds are the `NaN` of a failed parse is empty. -/
theorem jsSlice_nan {α : Type} (l : List α) :
    jsSlice l none none = [] := by
  simp [jsSlice, jsSliceIndex]

/-- The handler on a ready state, given that the cursor resolves to the
numeric offset `k`: the page is the 50-wide window at `k` of the filtered
sequence, and the continuation is `k + 50` rendered in decimal when that
index is still inside the filtered sequence. -/
theorem findResources_offset (st : CacheState) (hinit : st.cacheInitialized = true)
    (searchText : Option String) (cursor : Option String) (k : Nat)
    (hcur : (match cursor with
             | none => some (0 : Int)
             | some c => if c = "" then some (0 : Int) else jsParseInt c)
            = some (k : Int)) :
    findResources st { searchText := searchText, cursor := cursor } =
      { status := 200
        type := "SUCCESS"
        resources := ((filterAssets st.assetCache searchText).drop k).take 50
        continuation :=
          if k + 50 < (filterAssets st.assetCache searchText).length
          then some (toString (k + 50)) else none
        message := none } := by
  rw [findResources]
  rw [if_neg (by simp [hinit])]
  simp only [hcur, Option.map_some']
  rw [jsSlice_nat]
  have hps : ((ASSETS_PER_PAGE : Int)) = (((50 : Nat)) : Int) := rfl
  have hsum : ((k : Int) + (ASSETS_PER_PAGE : Int)) = (((k + 50 : Nat)) : Int) := by
    rw [hps]
    push_cast
    ring
  have htos : toString ((k : Int) + (ASSETS_PER_PAGE : Int)) = toString (k + 50) := by
    rw [hsum]
    rfl
  simp only [htos, hsum, Nat.cast_lt]
  simp only [show ASSETS_PER_PAGE = 50 from rfl]
  rw [show toString (((k + 50 : Nat)) : Int) = toString (k + 50) from rfl]

/-- Counterexample for claim C3 as stated: with a one-element snapshot, the
malformed cursor `"abc"` yields an empty page, while offset 0 (absent cursor)
yields the one-element first page — the two are not handled alike. -/
theorem claim_C3_counterexample :
    (findResources { assetCache := [buildAssetView catRaw], cacheInitialized := true }
        { searchText := none, cursor := some "abc" }).resources = []
    ∧ (findResources { assetCache := [buildAssetView catRaw], cacheInitialized := true }
        { searchText := none, cursor := none }).resources = [buildAssetView catRaw]
    ∧ ([] : List AssetView) ≠ [buildAssetView catRaw] := by
  decide

/-- Claim C3 (amended): a non-numeric cursor string is not rejected, but it is
not treated as offset 0 either: `parseInt` yields NaN, both slice bounds
normalize to 0, and the handler returns a SUCCESS response with an empty page
and a null continuation. -/
theorem claim_C3_malformed_cursor_amended (st : CacheState)
    (hinit : st.cacheInitialized = true) (searchText : Option String) (s : String)
    (hne : s ≠ "") (hbad : jsParseInt s = none) :
    findResources st { searchText := searchText, cursor := some s } =
      { status := 200, type := "SUCCESS", resources := [], continuation := none,
        message := none } := by
  rw [findResources]
  rw [if_neg (by simp [hinit])]
  simp only [if_neg hne, hbad, Option.map_none', jsSlice_nan]

/-- Witness for the amended C3 at a concrete malformed cursor. -/
theorem claim_C3_witness :
    findResources { assetCache := [buildAssetView catRaw], cacheInitialized := true }
        { searchText := none, cursor := some "abc" } =
      { status := 200, type := "SUCCESS", resources := [], continuation := none,
        message := none } :=
  claim_C3_malformed_cursor_amended
    { assetCache := [buildAssetView catRaw], cacheInitialized := true }
    rfl none "abc" (by decide) (by decide)

/-- Claim C2: with the cursor resolving to offset `k` (offset 0 when absent),
the page is the slice `[k, k+50)` of the filtered sequence and `nextCursor` is
the decimal string of `k+50` exactly when `k+50` is still inside the filtered
sequence; consequently a 120-element filtered sequence is traversed by cursors
absent, "50", "100" in pages of sizes 50, 50, 20 with a final null cursor, the
concatenation of the three pages being the filtered sequence itself. -/
theorem claim_C2_pagination (st : CacheState) (hinit : st.cacheInitialized = true)
    (searchText : Option String) (k : Nat) (s : String) (hne : s ≠ "")
    (hs : jsParseInt s = some (k : Int)) :
    ((findResources st { searchText := searchText, cursor := some s }).resources
        = ((filterAssets st.assetCache searchText).drop k).take 50)
    ∧ ((findResources st { searchText := searchText, cursor := some s }).continuation
        = if k + 50 < (filterAssets st.assetCache searchText).length
          then some (toString (k + 50)) else none)
    ∧ ((findResources st { searchText := searchText, cursor := none }).resources
        = (filterAssets st.assetCache searchText).take 50)
    ∧ ((findResources st { searchText := searchText, cursor := none }).continuation
        = if 50 < (filterAssets st.assetCache searchText).length
          then some "50" else none)
    ∧ ((filterAssets st.assetCache searchText).length = 120 →
        (findResources st { searchText := searchText, cursor := none }).resources.length
            = 50
        ∧ (findResources st
            { searchText := searchText, cursor := some "50" }).resources.length = 50
        ∧ (findResources st
            { searchText := searchText, cursor := some "100" }).resources.length = 20
        ∧ (findResources st
            { searchText := searchText, cursor := none }).continuation = some "50"
        ∧ (findResources st
            { searchText := searchText, cursor := some "50" }).continuation = some "100"
        ∧ (findResources st
            { searchText := searchText, cursor := some "100" }).continuation = none
        ∧ (findResources st { searchText := searchText, cursor := none }).resources
            ++ (findResources st
                  { searchText := searchText, cursor := some "50" }).resources
            ++ (findResources st
                  { searchText := searchText, cursor := some "100" }).resources
          = filterAssets st.assetCache searchText) := by
  have h0 := findResources_offset st hinit searchText none 0 rfl
  have hk := findResources_offset st hinit searchText (some s) k
    (by
      show (if s = "" then some (0 : Int) else jsParseInt s) = some ((k : Nat) : Int)
      rw [if_neg hne]
      exact hs)
  have h50 := findResources_offset st hinit searchText (some "50") 50 (by decide)
  have h100 := findResources_offset st hinit searchText (some "100") 100 (by decide)
  refine ⟨by rw [hk], by rw [hk], ?_, ?_, ?_⟩
  · rw [h0, List.drop_zero]
  · rw [h0]
    norm_num
    rw [show toString (50 : Nat) = "50" from by decide]
  · intro h120
    refine ⟨?_, ?_, ?_, ?_, ?_, ?_, ?_⟩
    · rw [h0]
      simp [List.length_take, List.length_drop, h120]
    · rw [h50]
      simp [List.length_take, List.length_drop, h120]
    · rw [h100]
      simp [List.length_take, List.length_drop, h120]
    · rw [h0, if_pos (by rw [h120]; omega)]
      show some (toString (0 + 50)) = some "50"
      decide
    · rw [h50, if_pos (by rw [h120]; omega)]
      show some (toString (50 + 50)) = some "100"
      decide
    · rw [h100, if_neg (by rw [h120]; omega)]
    · rw [h0, h50, h100, List.drop_zero]
      have e1 : ((filterAssets st.assetCache searchText).drop 100).take 50
          = (filterAssets st.assetCache searchText).drop 100 :=
        List.take_of_length_le (by rw [List.length_drop, h120]; omega)
      rw [e1, List.append_assoc, show (100 : Nat) = 50 + 50 from rfl,
        List.drop_take_append_drop]
      exact List.take_append_drop 50 _

/-- Witness for C2 at a concrete state and the concrete numeric cursor "50". -/
theorem claim_C2_witness :
    (findResources { assetCache := [buildAssetView catRaw], cacheInitialized := true }
        { searchText := none, cursor := some "50" }).resources
      = ((filterAssets [buildAssetView catRaw] none).drop 50).take 50 :=
  (claim_C2_pagination
    { assetCache := [buildAssetView catRaw], cacheInitialized := true }
    rfl none 50 "50" (by decide) (by decide)).1

/-- A slice of the empty list is empty, whatever the bounds. -/
theorem jsSlice_nil {α : Type} (s e : Option Int) : jsSlice ([] : List α) s e = [] := by
  simp [jsSlice]

/-- Any upstream stream that throws after a run of cursor-carrying pages makes
the whole fetch loop abort with that error. -/
theorem fetchPages_err (ps : List (List RawAsset)) (m : String)
    (rest : List PageResult) :
    ∀ acc, fetchPages (okPages ps ++ PageResult.err m :: rest) acc
      = Except.error m := by
  induction ps with
  | nil =>
    intro acc
    rfl
  | cons p ps ih =>
    intro acc
    rw [show okPages (p :: ps) = PageResult.ok p (some "next") :: okPages ps from rfl,
      List.cons_append]
    simp only [fetchPages]
    rw [if_neg (by decide)]
    exact ih _

/-- Claim C6: when some listing call throws (after any run of successful
pages), the accumulated records are discarded — starting from the initial
state the installed snapshot is empty — yet the readiness flag is set, so any
subsequent query succeeds (type SUCCESS) with zero results instead of
reporting not-ready. -/
theorem claim_C6_failure_containment (ps : List (List RawAsset)) (m : String)
    (rest : List PageResult) (req : FindRequest) :
    updateAssetCache (okPages ps ++ PageResult.err m :: rest) initialState
        = { assetCache := [], cacheInitialized := true }
    ∧ (findResources (updateAssetCache (okPages ps ++ PageResult.err m :: rest)
          initialState) req).type = "SUCCESS"
    ∧ (findResources (updateAssetCache (okPages ps ++ PageResult.err m :: rest)
          initialState) req).resources = [] := by
  have hst : updateAssetCache (okPages ps ++ PageResult.err m :: rest) initialState
      = { assetCache := [], cacheInitialized := true } := by
    rw [updateAssetCache, fetchPages_err ps m rest []]
    rfl
  have hfil : filterAssets ([] : List AssetView) req.searchText = [] := by
    rw [filterAssets]
    split <;> rfl
  refine ⟨hst, ?_, ?_⟩
  · rw [hst]
    rfl
  · rw [hst, findResources, if_neg (by decide)]
    simp only [hfil, jsSlice_nil]

/-- Draining a well-formed paged dataset accumulates the builder's image of
every page, in order. -/
theorem fetchPages_mkPages : ∀ (pages : List (List RawAsset)) (acc : List AssetView),
    fetchPages (mkPages pages) acc
      = Except.ok (acc ++ (pages.flatten).map buildAssetView)
  | [], acc => by simp [mkPages, fetchPages]
  | [p], acc => by simp [mkPages, fetchPages]
  | p :: q :: rest, acc => by
    rw [show mkPages (p :: q :: rest)
        = PageResult.ok p (some "next") :: mkPages (q :: rest) from rfl]
    simp only [fetchPages]
    rw [if_neg (by decide), fetchPages_mkPages (q :: rest) (acc ++ p.map buildAssetView)]
    simp [List.append_assoc]

/-- Claim C9: ingesting a dataset split into pages installs exactly the
builder's image of the concatenation of all pages, sets the readiness flag,
the snapshot length is the total record count, and (when the upstream
identifiers are duplicate-free) every input identifier appears exactly once
among the installed ids. -/
theorem claim_C9_completeness (pages : List (List RawAsset)) (st : CacheState) :
    (updateAssetCache (mkPages pages) st).cacheInitialized = true
    ∧ (updateAssetCache (mkPages pages) st).assetCache
        = (pages.flatten).map buildAssetView
    ∧ (updateAssetCache (mkPages pages) st).assetCache.length
        = (pages.map List.length).sum
    ∧ (((pages.flatten).map rawId).Nodup →
        ∀ r ∈ pages.flatten,
          ((updateAssetCache (mkPages pages) st).assetCache.map
              AssetView.id).count (rawId r) = 1) := by
  have hcache : updateAssetCache (mkPages pages) st
      = { assetCache := (pages.flatten).map buildAssetView,
          cacheInitialized := true } := by
    rw [updateAssetCache, fetchPages_mkPages pages []]
    simp
  rw [hcache]
  refine ⟨rfl, rfl, ?_, ?_⟩
  · rw [List.length_map, List.length_flatten]
  · intro hnd r hr
    rw [List.map_map, show (AssetView.id ∘ buildAssetView) = rawId from rfl]
    exact List.count_eq_one_of_mem hnd (List.mem_map_of_mem rawId hr)

/-- Witness for C9 on a concrete two-page dataset with three records. -/
theorem claim_C9_witness :
    (updateAssetCache (mkPages [[catRaw], [flacRaw, pdfRaw]])
        initialState).assetCache.length = 3
    ∧ ((updateAssetCache (mkPages [[catRaw], [flacRaw, pdfRaw]])
          initialState).assetCache.map AssetView.id).count (rawId catRaw) = 1 := by
  refine ⟨?_, ?_⟩
  · exact (claim_C9_completeness [[catRaw], [flacRaw, pdfRaw]]
      initialState).2.2.1.trans (by decide)
  · exact (claim_C9_completeness [[catRaw], [flacRaw, pdfRaw]]
      initialState).2.2.2 (by decide) catRaw (by decide)

end CanvaCache
